import Mathlib

/-!
Verification development for `src/https-server.py`, a minimal HTTPS static
file server: a `SimpleHTTPRequestHandler` subclass that appends three CORS
headers in its `end_headers` override, and a `run_server` startup routine
that checks for certificate files, wires up TLS, and serves until
interrupted.

The embedding has three parts:
* a header-buffer state machine for the `send_header` /
  `end_headers` mechanics (lines 16-22 of the source);
* a pure model of `run_server` / `__main__` (lines 24-55) over an explicit
  set of existing file paths;
* a model of the base file-serving handler (the Python
  `http.server.SimpleHTTPRequestHandler`, which is not part of this
  repository), modelled from the spec where noted.
-/

namespace HttpsServer

/-- Configuration, line 12 of the source: `PORT = 8443`. -/
def PORT : Nat := 8443

/-- Configuration, line 13 of the source: `CERT_FILE` set to the path certs/server.crt. -/
def CERT_FILE : String := "certs/server.crt"

/-- Configuration, line 14 of the source: `KEY_FILE` set to the path certs/server.key. -/
def KEY_FILE : String := "certs/server.key"

/-- The three CORS header fields the spec requires on every response,
as name/value pairs, in the required order. -/
def corsHeaders : List (String × String) :=
  [("Access-Control-Allow-Origin", "*"),
   ("Access-Control-Allow-Methods", "GET, POST, OPTIONS"),
   ("Access-Control-Allow-Headers", "Content-Type")]

/-- The names of the three CORS headers. -/
def corsHeaderNames : List String := corsHeaders.map (fun h => h.1)

/-- The header-side state of one handler invocation: the buffer of headers
queued by `send_header` calls, and the finalized header block once
`end_headers` has flushed it to the client (`none` while unsent). -/
structure HandlerState where
  headersBuffer : List (String × String)
  sentHeaders : Option (List (String × String))

/-- `BaseHTTPRequestHandler.send_header`: queue one header line at the end
of the header buffer. -/
def send_header (s : HandlerState) (keyword value : String) : HandlerState :=
  { s with headersBuffer := s.headersBuffer ++ [(keyword, value)] }

/-- `BaseHTTPRequestHandler.end_headers` (the base class): finalize the
header block, transmitting everything buffered so far. -/
def base_end_headers (s : HandlerState) : HandlerState :=
  { s with headersBuffer := [], sentHeaders := some s.headersBuffer }

/-- `MyHTTPRequestHandler.end_headers`, lines 17-22 of the source: three
`send_header` calls for the CORS headers, then `super().end_headers()`. -/
def end_headers (s : HandlerState) : HandlerState :=
  base_end_headers (send_header (send_header (send_header s
    "Access-Control-Allow-Origin" "*")
    "Access-Control-Allow-Methods" "GET, POST, OPTIONS")
    "Access-Control-Allow-Headers" "Content-Type")

/-- The header block a response ends up transmitting when the base handler
has buffered `base` and then finalization runs through the overridden
`end_headers`. -/
def headersFor (base : List (String × String)) : List (String × String) :=
  ((end_headers { headersBuffer := base, sentHeaders := none }).sentHeaders).getD []

/- ### The `run_server` startup / lifecycle model (lines 24-55) -/

/-- Line 27 of the source. -/
def certErrLine1 : String := "❌ Error: SSL certificates not found!"

/-- Line 28 of the source: the f-string interpolating both configured
paths, printed whenever the existence check fails. -/
def certErrLine2 : String := "   Looking for: " ++ CERT_FILE ++ " and " ++ KEY_FILE

/-- Line 52 of the source: printed when `KeyboardInterrupt` is caught. -/
def shutdownNotice : String := "\n\nServer stopped"

/-- Lines 40-47 of the source: the startup banner, one entry per `print`. -/
def bannerLines (cwd : String) : List String :=
  ["HTTPS Server running on https://localhost:" ++ toString PORT,
   "Serving files from: " ++ cwd,
   "Using SSL certificates:",
   "   - Certificate: " ++ CERT_FILE,
   "   - Private Key: " ++ KEY_FILE,
   "\nYour browser will show a security warning because this is a self-signed certificate.",
   "   Click \x27Advanced\x27 and \x27Proceed to localhost\x27 to continue.\n",
   "Press Ctrl+C to stop the server\n"]

/-- Observable outcome of one `run_server` invocation.  `output` is the
sequence of `print` arguments; `returned` is whether `run_server` returned
normally (as opposed to still running in `serve_forever`, which never
returns on its own; no exception ever escapes `run_server` in the modelled
behaviours). -/
structure RunOutcome where
  output : List String
  socketOpened : Bool
  tlsContextConstructed : Bool
  acceptLoopEntered : Bool
  acceptLoopStopped : Bool
  returned : Bool

/-- `run_server`, lines 24-52 of the source, as a function of the set of
existing filesystem paths `fs`, the working directory string `cwd`, and
whether a `KeyboardInterrupt` is delivered while `serve_forever` runs.
The certificate existence check (line 26) happens before the
`http.server.HTTPServer` construction (line 33, which binds the listening
socket) and the `ssl.SSLContext` construction (line 36); on failure it
prints two diagnostic lines and returns. -/
def run_server (fs : List String) (cwd : String) (interrupted : Bool) : RunOutcome :=
  if !(fs.contains CERT_FILE) || !(fs.contains KEY_FILE) then
    { output := [certErrLine1, certErrLine2],
      socketOpened := false,
      tlsContextConstructed := false,
      acceptLoopEntered := false,
      acceptLoopStopped := false,
      returned := true }
  else
    { output := bannerLines cwd ++ (if interrupted then [shutdownNotice] else []),
      socketOpened := true,
      tlsContextConstructed := true,
      acceptLoopEntered := true,
      acceptLoopStopped := interrupted,
      returned := interrupted }

/-- Lines 54-55 of the source: `__main__` just calls `run_server()`.  The
process exit status is 0 whenever `run_server` returns normally; `none`
means the process has not terminated. -/
def mainExitStatus (fs : List String) (cwd : String) (interrupted : Bool) : Option Nat :=
  if (run_server fs cwd interrupted).returned then some 0 else none

/-- The configured certificate paths that are actually missing from `fs`,
per the existence checks on line 26. -/
def missingCertPaths (fs : List String) : List String :=
  (if fs.contains CERT_FILE then [] else [CERT_FILE]) ++
    (if fs.contains KEY_FILE then [] else [KEY_FILE])

/-- `containsSub pat s` is true when the character list `pat` occurs
contiguously inside `s`. -/
def containsSub (pat : List Char) : List Char → Bool
  | [] => pat.isEmpty
  | c :: t => pat.isPrefixOf (c :: t) || containsSub pat t

/-- Whether some printed line mentions the path `p` as a substring. -/
def mentions (lines : List String) (p : String) : Bool :=
  lines.any (fun l => containsSub p.toList l.toList)

/- ### The base file-serving handler, modelled from the spec

The handler class in the source subclasses
`http.server.SimpleHTTPRequestHandler` and overrides only `end_headers`;
the file-serving logic itself lives in the Python standard library and is
not among the sources of this repository.  The definitions below are
modelled from the spec (sections 4.2 and 8). -/

/-- A filesystem entry under consideration: a regular file with its byte
content, or a directory. -/
inductive FsEntry where
  | file (content : List Nat)
  | dir
  deriving DecidableEq

/-- A filesystem: a finite map from paths (component lists) to entries. -/
abbrev Fs := List (List String × FsEntry)

/-- Look a path up in the filesystem. -/
def fsLookup (fs : Fs) (p : List String) : Option FsEntry :=
  (fs.find? (fun e => e.1 == p)).map (fun e => e.2)

/-- A response body.  `bytes` is streamed file content; `errorPage` is the
minimal generated body of an error response; `listing` is a generated
directory index; `empty` is the bodiless reply to `HEAD`. -/
inductive Body where
  | bytes (content : List Nat)
  | errorPage (code : Nat)
  | listing (entries : List String)
  | empty
  deriving DecidableEq

/-- An HTTP response: status code, finalized header block, body. -/
structure Response where
  status : Nat
  headers : List (String × String)
  body : Body

/-- Modelled from the spec: path resolution of the base file-serving
handler (spec 4.2: "the request path is resolved relative to the serving
root (current working directory at startup); must not escape that root
(directory traversal must be rejected by the underlying path-resolution
logic)").  Empty and `.` components are dropped, `..` pops one resolved
component, and a `..` that would climb above the serving root makes the
whole resolution fail (`none`), i.e. the traversal is rejected. -/
def resolve_path : List String → List String → Option (List String)
  | acc, [] => some acc.reverse
  | acc, c :: rest =>
    if c == "" || c == "." then resolve_path acc rest
    else if c == ".." then
      match acc with
      | [] => none
      | _ :: acc2 => resolve_path acc2 rest
    else resolve_path (c :: acc) rest

/-- Modelled from the spec: content-type inference by file extension
(spec 4.2: "appropriate content-type inference by extension"). -/
def guess_type (name : String) : String :=
  if name.endsWith ".html" then "text/html"
  else if name.endsWith ".txt" then "text/plain"
  else if name.endsWith ".json" then "application/json"
  else "application/octet-stream"

/-- The headers the base handler buffers for a response before
finalization: `send_response` adds the Server and Date lines, then the
content headers follow.  The Date value is a placeholder; no claim
concerns it. -/
def baseRespHeaders (contentType : String) (contentLength : Nat) : List (String × String) :=
  [("Server", "SimpleHTTP BaseHTTP Python"),
   ("Date", "-"),
   ("Content-type", contentType),
   ("Content-Length", toString contentLength)]

/-- Assemble a response whose header block went through the overridden
`end_headers` at finalization. -/
def mkResponse (status : Nat) (contentType : String) (contentLength : Nat)
    (body : Body) : Response :=
  { status := status,
    headers := headersFor (baseRespHeaders contentType contentLength),
    body := body }

/-- Modelled from the spec (4.2: "No match: respond with status 404 and a
minimal body"). -/
def notFoundResponse : Response :=
  mkResponse 404 "text/html;charset=utf-8" 0 (Body.errorPage 404)

/-- The names of the immediate children of directory `p` in `fs`. -/
def childNames (fs : Fs) (p : List String) : List String :=
  fs.filterMap (fun e =>
    if e.1.dropLast == p && e.1 != [] then e.1.getLast? else none)

/-- The byte length of a body, for the Content-Length header. -/
def bodyLength : Body → Nat
  | Body.bytes c => c.length
  | Body.errorPage _ => 0
  | Body.listing es => es.length
  | Body.empty => 0

/-- Modelled from the spec: `GET` handling of the base file-serving
handler (spec 4.2).  The request path is resolved under the serving root
`root`; a rejected (root-escaping) resolution or an unmatched path yields
404; a regular file is served with status 200 and its exact bytes; a
directory is served as its `index.html` if present, else as a generated
index listing. -/
def do_GET (fs : Fs) (root : List String) (req : List String) : Response :=
  match resolve_path [] req with
  | none => notFoundResponse
  | some rel =>
    match fsLookup fs (root ++ rel) with
    | some (FsEntry.file c) =>
        mkResponse 200 (guess_type (rel.getLastD "")) c.length (Body.bytes c)
    | some FsEntry.dir =>
        match fsLookup fs (root ++ rel ++ ["index.html"]) with
        | some (FsEntry.file c) => mkResponse 200 "text/html" c.length (Body.bytes c)
        | _ =>
            mkResponse 200 "text/html;charset=utf-8"
              (childNames fs (root ++ rel)).length
              (Body.listing (childNames fs (root ++ rel)))
    | none => notFoundResponse

/-- Modelled from the spec: `HEAD` is `GET` without the body (spec 4.2:
"or headers only for HEAD"). -/
def do_HEAD (fs : Fs) (root : List String) (req : List String) : Response :=
  { do_GET fs root req with body := Body.empty }

/-- Modelled from the spec: the method dispatch of the base handler (spec 4.2:
"Supported methods: at minimum GET and HEAD; other methods should receive
whatever standard method-not-supported response the base file-serving
behavior produces (typically a 501/405-class status) — this handler does
not add custom method handling").  The base dispatcher answers a method
without a handler with a 501 Unsupported-method error. -/
def handle_request (fs : Fs) (root : List String) (method : String)
    (req : List String) : Response :=
  if method == "GET" then do_GET fs root req
  else if method == "HEAD" then do_HEAD fs root req
  else mkResponse 501 "text/html;charset=utf-8" 0 (Body.errorPage 501)

/- ### Helper lemmas -/

/-- Finalizing through the overridden `end_headers` appends exactly the
three CORS pairs after whatever the base handler buffered. -/
theorem headersFor_eq (base : List (String × String)) :
    headersFor base = base ++ corsHeaders := by
  simp [headersFor, end_headers, base_end_headers, send_header, corsHeaders]

/-- In any `mkResponse`, the CORS-named headers are exactly the three CORS
pairs. -/
theorem mkResponse_filter_cors (st : Nat) (ct : String) (n : Nat) (b : Body) :
    (mkResponse st ct n b).headers.filter
      (fun h => corsHeaderNames.contains h.1) = corsHeaders := rfl

/-- Every `do_GET` response carries exactly the three CORS pairs among its
CORS-named headers. -/
theorem do_GET_filter_cors (fs : Fs) (root req : List String) :
    (do_GET fs root req).headers.filter
      (fun h => corsHeaderNames.contains h.1) = corsHeaders := by
  unfold do_GET
  split
  · exact mkResponse_filter_cors _ _ _ _
  · split
    · exact mkResponse_filter_cors _ _ _ _
    · split
      · exact mkResponse_filter_cors _ _ _ _
      · exact mkResponse_filter_cors _ _ _ _
    · exact mkResponse_filter_cors _ _ _ _

/-- Every response of the modelled server, whatever the method, carries
exactly the three CORS pairs among its CORS-named headers. -/
theorem handle_request_filter_cors (fs : Fs) (root : List String)
    (method : String) (req : List String) :
    (handle_request fs root method req).headers.filter
      (fun h => corsHeaderNames.contains h.1) = corsHeaders := by
  unfold handle_request
  split
  · exact do_GET_filter_cors fs root req
  · split
    · exact do_GET_filter_cors fs root req
    · exact mkResponse_filter_cors _ _ _ _

/-- Any file bytes served by `do_GET` come from a path under the serving
root. -/
theorem do_GET_bytes_from_root (fs : Fs) (root req : List String)
    (c : List Nat) (hc : (do_GET fs root req).body = Body.bytes c) :
    ∃ rel, fsLookup fs (root ++ rel) = some (FsEntry.file c) := by
  unfold do_GET at hc
  split at hc
  · simp [notFoundResponse, mkResponse] at hc
  · rename_i rel heq
    split at hc
    · rename_i c2 hl
      simp only [mkResponse] at hc
      cases hc
      exact ⟨rel, hl⟩
    · rename_i hl
      split at hc
      · rename_i c2 hi
        simp only [mkResponse] at hc
        cases hc
        exact ⟨rel ++ ["index.html"], by rw [← List.append_assoc]; exact hi⟩
      · simp [mkResponse] at hc
    · simp [notFoundResponse, mkResponse] at hc

/- ### Claim theorems -/

/-- Claim C1: every response the server produces, regardless of status
code or content type, carries the three CORS headers with exactly the
specified names and values in its transmitted header block: the finalized
header block of any handler state contains all three pairs, and in any
modelled response the CORS-named headers are exactly the three specified
pairs. -/
theorem every_response_carries_cors (s : HandlerState) (fs : Fs)
    (root : List String) (method : String) (req : List String) :
    (("Access-Control-Allow-Origin", "*") ∈ ((end_headers s).sentHeaders.getD [])
      ∧ ("Access-Control-Allow-Methods", "GET, POST, OPTIONS")
          ∈ ((end_headers s).sentHeaders.getD [])
      ∧ ("Access-Control-Allow-Headers", "Content-Type")
          ∈ ((end_headers s).sentHeaders.getD []))
    ∧ (handle_request fs root method req).headers.filter
        (fun h => corsHeaderNames.contains h.1) = corsHeaders := by
  refine ⟨⟨?_, ?_, ?_⟩, handle_request_filter_cors fs root method req⟩ <;>
    simp [end_headers, base_end_headers, send_header]

/-- Claim C2: the overridden `end_headers` appends the three CORS headers
after all headers the base handler buffered, in the order
Access-Control-Allow-Origin, Access-Control-Allow-Methods,
Access-Control-Allow-Headers, and the transmitted (finalized) header
block is exactly the base headers followed by those three. -/
theorem cors_appended_last_in_order (buf : List (String × String)) :
    (end_headers { headersBuffer := buf, sentHeaders := none }).sentHeaders
        = some (buf ++ corsHeaders)
      ∧ corsHeaders
        = [("Access-Control-Allow-Origin", "*"),
           ("Access-Control-Allow-Methods", "GET, POST, OPTIONS"),
           ("Access-Control-Allow-Headers", "Content-Type")] := by
  refine ⟨?_, rfl⟩
  simp [end_headers, base_end_headers, send_header, corsHeaders]

/-- Claim C4: a request whose path resolves to an existing regular file
under the serving root is answered with status 200 and a body that is
byte-for-byte the file content. -/
theorem existing_file_served_byte_exact (fs : Fs) (root req rel : List String)
    (c : List Nat) (hr : resolve_path [] req = some rel)
    (hf : fsLookup fs (root ++ rel) = some (FsEntry.file c)) :
    (handle_request fs root "GET" req).status = 200
    ∧ (handle_request fs root "GET" req).body = Body.bytes c := by
  have hg : handle_request fs root "GET" req = do_GET fs root req := rfl
  simp only [hg, do_GET, hr, hf]
  exact ⟨rfl, rfl⟩

/-- Witness for C4: serving index.html containing the bytes 104 105. -/
theorem existing_file_served_byte_exact_witness :
    resolve_path [] ["index.html"] = some ["index.html"]
    ∧ fsLookup [(["index.html"], FsEntry.file [104, 105])]
        ([] ++ ["index.html"]) = some (FsEntry.file [104, 105])
    ∧ ((handle_request [(["index.html"], FsEntry.file [104, 105])] []
          "GET" ["index.html"]).status = 200
        ∧ (handle_request [(["index.html"], FsEntry.file [104, 105])] []
            "GET" ["index.html"]).body = Body.bytes [104, 105]) :=
  ⟨rfl, rfl,
    existing_file_served_byte_exact [(["index.html"], FsEntry.file [104, 105])]
      [] ["index.html"] ["index.html"] [104, 105] rfl rfl⟩

/-- Claim C5: a request whose path does not resolve to any existing file
or directory under the serving root is answered with status 404 and the
minimal generated error body. -/
theorem unmatched_path_yields_404_minimal_body (fs : Fs) (root req : List String)
    (h : (resolve_path [] req).bind (fun rel => fsLookup fs (root ++ rel)) = none) :
    (handle_request fs root "GET" req).status = 404
    ∧ (handle_request fs root "GET" req).body = Body.errorPage 404 := by
  have hg : handle_request fs root "GET" req = do_GET fs root req := rfl
  rw [hg]
  unfold do_GET
  split
  · exact ⟨rfl, rfl⟩
  · rename_i rel hr
    rw [hr] at h
    have hl : fsLookup fs (root ++ rel) = none := h
    split
    · rename_i c hlf
      rw [hlf] at hl
      simp at hl
    · rename_i hld
      rw [hld] at hl
      simp at hl
    · exact ⟨rfl, rfl⟩

/-- Witness for C5: requesting a path absent from an empty serving root. -/
theorem unmatched_path_yields_404_minimal_body_witness :
    (resolve_path [] ["nope"]).bind
        (fun rel => fsLookup ([] : Fs) ([] ++ rel)) = none
    ∧ ((handle_request ([] : Fs) [] "GET" ["nope"]).status = 404
        ∧ (handle_request ([] : Fs) [] "GET" ["nope"]).body = Body.errorPage 404) :=
  ⟨rfl, unmatched_path_yields_404_minimal_body [] [] ["nope"] rfl⟩

/-- Claim C6: a request path whose traversal escapes the serving root is
rejected with 404 (a 4xx-class status), and any file bytes ever served
come from a path under the serving root. -/
theorem traversal_rejected_and_no_outside_content (fs : Fs)
    (root req : List String) :
    (resolve_path [] req = none →
      (handle_request fs root "GET" req).status = 404
      ∧ 400 ≤ (handle_request fs root "GET" req).status
      ∧ (handle_request fs root "GET" req).status < 500)
    ∧ (∀ c, (handle_request fs root "GET" req).body = Body.bytes c →
        ∃ rel, fsLookup fs (root ++ rel) = some (FsEntry.file c)) := by
  constructor
  · intro h
    have hg : handle_request fs root "GET" req = do_GET fs root req := rfl
    rw [hg]
    unfold do_GET
    rw [h]
    refine ⟨rfl, ?_, ?_⟩
    · show (400 : Nat) ≤ notFoundResponse.status
      decide
    · show notFoundResponse.status < 500
      decide
  · intro c hc
    exact do_GET_bytes_from_root fs root req c hc

/-- Witness for C6: the traversal request ../../etc/passwd against a root
that does not contain etc/passwd is rejected with 404 even though the
filesystem holds a file at etc/passwd outside the root. -/
theorem traversal_rejected_witness :
    resolve_path [] ["..", "..", "etc", "passwd"] = none
    ∧ (handle_request [(["etc", "passwd"], FsEntry.file [42])] ["home"]
        "GET" ["..", "..", "etc", "passwd"]).status = 404 :=
  ⟨rfl,
    ((traversal_rejected_and_no_outside_content
        [(["etc", "passwd"], FsEntry.file [42])] ["home"]
        ["..", "..", "etc", "passwd"]).1 rfl).1⟩

/-- Claim C10: an OPTIONS request is answered by the base dispatcher with
a 501 method-not-supported error, while that very response still carries
the Access-Control-Allow-Methods header advertising OPTIONS. -/
theorem options_answered_501_despite_advertisement (fs : Fs)
    (root req : List String) :
    (handle_request fs root "OPTIONS" req).status = 501
    ∧ (handle_request fs root "OPTIONS" req).body = Body.errorPage 501
    ∧ ("Access-Control-Allow-Methods", "GET, POST, OPTIONS")
        ∈ (handle_request fs root "OPTIONS" req).headers := by
  refine ⟨rfl, rfl, ?_⟩
  show ("Access-Control-Allow-Methods", "GET, POST, OPTIONS")
      ∈ headersFor (baseRespHeaders "text/html;charset=utf-8" 0)
  decide

/-- Claim C3 counterexample: the startup diagnostic does not report which
specific path is missing.  With the certificate file present and only the
key file missing, the printed diagnostic still mentions the certificate
path, a path that is not missing, so the diagnostic does not identify the
specifically missing path. -/
theorem startup_diagnostic_names_present_path :
    missingCertPaths [CERT_FILE] = [KEY_FILE]
    ∧ mentions (run_server [CERT_FILE] "/srv" false).output CERT_FILE = true
    ∧ (missingCertPaths [CERT_FILE]).contains CERT_FILE = false := by
  decide

/-- Claim C3 (amended): if the certificate file or the key file is missing
at startup, no listening socket is opened, no TLS context is constructed,
the accept loop is never entered, `run_server` prints a fixed two-line
diagnostic naming both configured paths (not specifically the missing
ones) and returns normally, so the process terminates with exit status 0
and no partial startup state. -/
theorem missing_certs_fail_fast (fs : List String) (cwd : String)
    (interrupted : Bool)
    (h : fs.contains CERT_FILE = false ∨ fs.contains KEY_FILE = false) :
    run_server fs cwd interrupted =
      { output := [certErrLine1, certErrLine2],
        socketOpened := false,
        tlsContextConstructed := false,
        acceptLoopEntered := false,
        acceptLoopStopped := false,
        returned := true }
    ∧ mentions [certErrLine1, certErrLine2] CERT_FILE = true
    ∧ mentions [certErrLine1, certErrLine2] KEY_FILE = true
    ∧ mainExitStatus fs cwd interrupted = some 0 := by
  have hrs : run_server fs cwd interrupted =
      { output := [certErrLine1, certErrLine2],
        socketOpened := false,
        tlsContextConstructed := false,
        acceptLoopEntered := false,
        acceptLoopStopped := false,
        returned := true } := by
    unfold run_server
    rcases h with h | h <;> simp at h <;> simp [h]
  refine ⟨hrs, by decide, by decide, ?_⟩
  simp [mainExitStatus, hrs]

/-- Witness for the amended C3: starting with no files at all. -/
theorem missing_certs_fail_fast_witness :
    (List.contains ([] : List String) CERT_FILE = false
      ∨ List.contains ([] : List String) KEY_FILE = false)
    ∧ (run_server [] "/srv" false =
        { output := [certErrLine1, certErrLine2],
          socketOpened := false,
          tlsContextConstructed := false,
          acceptLoopEntered := false,
          acceptLoopStopped := false,
          returned := true }
      ∧ mentions [certErrLine1, certErrLine2] CERT_FILE = true
      ∧ mentions [certErrLine1, certErrLine2] KEY_FILE = true
      ∧ mainExitStatus [] "/srv" false = some 0) :=
  ⟨Or.inl rfl, missing_certs_fail_fast [] "/srv" false (Or.inl rfl)⟩

/-- Claim C7: when an interrupt is delivered while the server is in its
accept loop, the loop stops, the shutdown notice is printed, and
`run_server` returns normally so the process exits with status 0 and no
unhandled fault. -/
theorem interrupt_stops_loop_and_exits_cleanly (fs : List String)
    (cwd : String) (h1 : fs.contains CERT_FILE = true)
    (h2 : fs.contains KEY_FILE = true) :
    (run_server fs cwd true).acceptLoopEntered = true
    ∧ (run_server fs cwd true).acceptLoopStopped = true
    ∧ shutdownNotice ∈ (run_server fs cwd true).output
    ∧ (run_server fs cwd true).returned = true
    ∧ mainExitStatus fs cwd true = some 0 := by
  have hrs : run_server fs cwd true =
      { output := bannerLines cwd ++ [shutdownNotice],
        socketOpened := true,
        tlsContextConstructed := true,
        acceptLoopEntered := true,
        acceptLoopStopped := true,
        returned := true } := by
    unfold run_server
    simp at h1 h2
    simp [h1, h2]
  refine ⟨?_, ?_, ?_, ?_, ?_⟩ <;> simp [hrs, mainExitStatus]

/-- Witness for C7: both certificate files present, interrupt delivered. -/
theorem interrupt_stops_loop_and_exits_cleanly_witness :
    List.contains [CERT_FILE, KEY_FILE] CERT_FILE = true
    ∧ List.contains [CERT_FILE, KEY_FILE] KEY_FILE = true
    ∧ ((run_server [CERT_FILE, KEY_FILE] "/srv" true).acceptLoopEntered = true
      ∧ (run_server [CERT_FILE, KEY_FILE] "/srv" true).acceptLoopStopped = true
      ∧ shutdownNotice ∈ (run_server [CERT_FILE, KEY_FILE] "/srv" true).output
      ∧ (run_server [CERT_FILE, KEY_FILE] "/srv" true).returned = true
      ∧ mainExitStatus [CERT_FILE, KEY_FILE] "/srv" true = some 0) :=
  ⟨by decide, by decide,
    interrupt_stops_loop_and_exits_cleanly [CERT_FILE, KEY_FILE] "/srv"
      (by decide) (by decide)⟩

/-- Claim C8: whenever the startup certificate check fails, the printed
diagnostic is the same fixed two lines and names both configured paths,
independent of which of the two files is actually missing. -/
theorem failed_check_diagnostic_names_both_paths (fs : List String)
    (cwd : String) (interrupted : Bool)
    (h : fs.contains CERT_FILE = false ∨ fs.contains KEY_FILE = false) :
    (run_server fs cwd interrupted).output = [certErrLine1, certErrLine2]
    ∧ mentions [certErrLine1, certErrLine2] CERT_FILE = true
    ∧ mentions [certErrLine1, certErrLine2] KEY_FILE = true := by
  have hout : (run_server fs cwd interrupted).output = [certErrLine1, certErrLine2] := by
    unfold run_server
    rcases h with h | h <;> simp at h <;> simp [h]
  exact ⟨hout, by decide, by decide⟩

/-- Witness for C8: only the certificate file is missing, yet the
diagnostic names both paths. -/
theorem failed_check_diagnostic_names_both_paths_witness :
    List.contains [KEY_FILE] CERT_FILE = false
    ∧ ((run_server [KEY_FILE] "/tmp" true).output = [certErrLine1, certErrLine2]
      ∧ mentions [certErrLine1, certErrLine2] CERT_FILE = true
      ∧ mentions [certErrLine1, certErrLine2] KEY_FILE = true) :=
  ⟨by decide,
    failed_check_diagnostic_names_both_paths [KEY_FILE] "/tmp" true
      (Or.inl (by decide))⟩

/-- Claim C9: when startup fails because a certificate or key file is
missing, `run_server` returns normally and the process exits with status
0, the same exit status produced by a clean interrupt-triggered shutdown,
so the two are indistinguishable by exit code alone. -/
theorem startup_failure_exit_indistinguishable (fs fs2 : List String)
    (cwd cwd2 : String) (interrupted : Bool)
    (h : fs.contains CERT_FILE = false ∨ fs.contains KEY_FILE = false)
    (h1 : fs2.contains CERT_FILE = true) (h2 : fs2.contains KEY_FILE = true) :
    (run_server fs cwd interrupted).returned = true
    ∧ mainExitStatus fs cwd interrupted = some 0
    ∧ mainExitStatus fs2 cwd2 true = some 0
    ∧ mainExitStatus fs cwd interrupted = mainExitStatus fs2 cwd2 true := by
  have hret : (run_server fs cwd interrupted).returned = true := by
    unfold run_server
    rcases h with h | h <;> simp at h <;> simp [h]
  have hret2 : (run_server fs2 cwd2 true).returned = true := by
    unfold run_server
    simp at h1 h2
    simp [h1, h2]
  refine ⟨hret, ?_, ?_, ?_⟩ <;> simp [mainExitStatus, hret, hret2]

/-- Witness for C9: a filesystem with an unrelated file versus one with
both certificates. -/
theorem startup_failure_exit_indistinguishable_witness :
    (List.contains ["readme.md"] CERT_FILE = false
      ∨ List.contains ["readme.md"] KEY_FILE = false)
    ∧ List.contains [CERT_FILE, KEY_FILE] CERT_FILE = true
    ∧ List.contains [CERT_FILE, KEY_FILE] KEY_FILE = true
    ∧ ((run_server ["readme.md"] "/a" false).returned = true
      ∧ mainExitStatus ["readme.md"] "/a" false = some 0
      ∧ mainExitStatus [CERT_FILE, KEY_FILE] "/b" true = some 0
      ∧ mainExitStatus ["readme.md"] "/a" false
          = mainExitStatus [CERT_FILE, KEY_FILE] "/b" true) :=
  ⟨Or.inl (by decide), by decide, by decide,
    startup_failure_exit_indistinguishable ["readme.md"] [CERT_FILE, KEY_FILE]
      "/a" "/b" false (Or.inl (by decide)) (by decide) (by decide)⟩

end HttpsServer
